import Mathlib

/-!
Shallow embedding of the run-orchestration layer of the TypeCNN command-line
interface (`src/CommandLineInterface.cpp`): dataset resolution, the keep-best
checkpoint policy, the train/validate drivers, mode sequencing, and argument
validation.  External collaborators (the CNN engine, the concrete file
parsers, the persistence byte format) are modelled as oracle parameters;
observable behaviour (stdout/stderr lines, engine invocations, persistence
attempts) is recorded in an event trace.
-/

namespace TypeCNN

/-- Exit code `EXIT_SUCCESS`. -/
def exitSuccess : Nat := 0

/-- Exit code `EXIT_FAILURE`. -/
def exitFailure : Nat := 1

/-- Observable effects of the CLI layer: lines printed to stdout/stderr,
calls into the CNN engine, callback installation, and persistence attempts. -/
inductive Event where
  | installCallback
  | engineTrain
  | engineValidate
  | dumpAttempt
  | errLine (s : String)
  | outLine (s : String)
deriving Repr, DecidableEq

/-- The `Dimensions` triple used for input/output sizes. -/
structure Dimensions where
  width : Nat
  height : Nat
  depth : Nat
deriving Repr, DecidableEq

/-! ### Filename classification

`parseInputDataset` dispatches each file by matching the whole filename
against one of three ECMAScript regular expressions:
`.+\.[^\.]*idx[^\.]*$`, `.+\.[^\.]*bin[^\.]*$`, `^.+\.txt$`.
We embed each as an executable Boolean classifier on the character list. -/

/-- ECMAScript `.` matches every character except a line terminator. -/
def isLineTerm (c : Char) : Bool :=
  c = '\n' || c = '\r' || c = Char.ofNat 0x2028 || c = Char.ofNat 0x2029

/-- Splits a character list at its last `'.'`: returns the part before the
last dot and the (dot-free) part after it, or `none` when no dot occurs. -/
def lastDotSplit : List Char → Option (List Char × List Char)
  | [] => none
  | c :: cs =>
    match lastDotSplit cs with
    | some (p, e) => some (c :: p, e)
    | none => if c = '.' then some ([], cs) else none

/-- Whether `tok` is a prefix of `l`. -/
def startsWithSeq : List Char → List Char → Bool
  | [], _ => true
  | _ :: _, [] => false
  | t :: ts, c :: cs => t = c && startsWithSeq ts cs

/-- Whether `tok` occurs contiguously somewhere inside `l`. -/
def containsSeq (tok : List Char) : List Char → Bool
  | [] => tok.isEmpty
  | c :: cs => startsWithSeq tok (c :: cs) || containsSeq tok cs

/-- Match against `.+\.[^\.]*TOK[^\.]*$`: some nonempty line-terminator-free
prefix, then a literal dot, then a dot-free tail containing `tok`.  Since the
tail admits no dot, the matched dot is necessarily the last dot of the
filename. -/
def matchSuffixTok (tok : List Char) (s : String) : Bool :=
  match lastDotSplit s.toList with
  | none => false
  | some (pre, ext) =>
    !pre.isEmpty && pre.all (fun c => !isLineTerm c) && containsSeq tok ext

/-- Match for the index-table family regex `.+\.[^\.]*idx[^\.]*$`. -/
def matchIdxFile (s : String) : Bool := matchSuffixTok "idx".toList s

/-- Match for the fixed-record binary family regex `.+\.[^\.]*bin[^\.]*$`. -/
def matchBinFile (s : String) : Bool := matchSuffixTok "bin".toList s

/-- Match for the manifest/text family regex `^.+\.txt$`: a nonempty
line-terminator-free prefix followed by the literal suffix `.txt`. -/
def matchTxtFile (s : String) : Bool :=
  let l := s.toList
  decide (5 ≤ l.length) && decide (l.drop (l.length - 4) = ".txt".toList) &&
    (l.take (l.length - 4)).all (fun c => !isLineTerm c)

/-- Companion label-file name for the index-table family: substitute every
occurrence of `images` by `labels` and then every `idx3` by `idx1`. -/
def deriveLabelFile (f : String) : String :=
  (f.replace "images" "labels").replace "idx3" "idx1"

/-! ### Dataset resolution -/

/-- Oracle bundle for the three external parser collaborators.  Each returns
the dataset parsed from one file. `idxParse imageFile labelFile flatOut offset
toLoad`, `binParse file w h d flatOut offset toLoad`,
`pngParse manifest flatOut grayscale offset toLoad`. -/
structure Parsers (α : Type) where
  idxParse : String → String → Nat → Nat → Nat → List α
  binParse : String → Nat → Nat → Nat → Nat → Nat → Nat → List α
  pngParse : String → Nat → Bool → Nat → Nat → List α

/-- Embedding of `CommandLineInterface::parseInputDataset`.  `input` starts
empty; each file is classified by the three regexes in order and the chosen
parser's result is *assigned* to `input` (the C++ writes `input = ...`, it
does not append); a file matching no pattern leaves `input` unchanged and
emits a non-fatal stderr diagnostic.  Returns the final dataset and the
emitted events. -/
def parseInputDataset {α : Type} (P : Parsers α) (grayscale : Bool)
    (files : List String) (inputSize outputSize : Dimensions)
    (offset toLoad : Nat) : List α × List Event :=
  let flatOut := outputSize.width * outputSize.height * outputSize.depth
  files.foldl
    (fun st file =>
      if matchIdxFile file then
        (P.idxParse file (deriveLabelFile file) flatOut offset toLoad, st.2)
      else if matchBinFile file then
        (P.binParse file inputSize.width inputSize.height inputSize.depth
          flatOut offset toLoad, st.2)
      else if matchTxtFile file then
        (P.pngParse file flatOut grayscale offset toLoad, st.2)
      else
        (st.1, st.2 ++
          [Event.errLine "Input data file not detected as either BIN, IDX or TXT file (based on extension)."]))
    ([], [])

/-! ### Persistence and the keep-best checkpoint policy

`dumpOk` is the oracle for whether the persistence collaborator's
`dumpNetwork` succeeds or throws. -/

/-- Embedding of `CommandLineInterface::dumpNetworkToDisk`: attempt the dump;
on failure print one diagnostic line to stderr and return `EXIT_FAILURE`,
otherwise return `EXIT_SUCCESS`. -/
def dumpNetworkToDisk (dumpOk : Bool) : Nat × List Event :=
  if dumpOk then (exitSuccess, [Event.dumpAttempt])
  else (exitFailure,
    [Event.dumpAttempt, Event.errLine "Could not save network to disk."])

/-- Embedding of `CommandLineInterface::keepBestCallback`: compare the epoch
accuracy strictly against the stored best; when greater, update the best and
dump the network, *discarding* the dump's exit code (the C++ callback is
`void` and ignores `dumpNetworkToDisk()`'s return value).  Returns the new
stored best and the emitted events. -/
def keepBestCallback (dumpOk : Bool) (best acc : ℚ) : ℚ × List Event :=
  if best < acc then (acc, (dumpNetworkToDisk dumpOk).2) else (best, [])

/-- The stored best accuracy starts at `-1.0f` (`static auto bestAccuracy =
-1.0f;`), below any valid accuracy. -/
def keepBestInit : ℚ := -1

/-- The training loop invokes the installed epoch-finished callback once per
epoch with that epoch's validation accuracy; this threads the stored best
through the sequence of reported accuracies and concatenates the events. -/
def keepBestSeq (dumpOk : Bool) (best : ℚ) : List ℚ → ℚ × List Event
  | [] => (best, [])
  | acc :: rest =>
    let r := keepBestCallback dumpOk best acc
    let t := keepBestSeq dumpOk r.1 rest
    (t.1, r.2 ++ t.2)

/-- A whole keep-best run over the per-epoch validation accuracies, starting
from `keepBestInit`. -/
def keepBestRun (dumpOk : Bool) (accs : List ℚ) : ℚ × List Event :=
  keepBestSeq dumpOk keepBestInit accs

/-! ### Train / validate drivers and mode sequencing -/

/-- Embedding of `CommandLineInterface::train`.  On an empty dataset: print a
message and return `EXIT_FAILURE` without touching the model.  Otherwise
install the keep-best callback when requested, delegate to the engine's
training loop (which invokes the callback once per entry of `accs`), and
afterwards dump the network exactly when `saveWeights && !keepBest`, returning
that dump's exit code. -/
def trainRun {α : Type} (saveWeights keepBest dumpOk : Bool) (accs : List ℚ)
    (trainingData : List α) : Nat × List Event :=
  if trainingData.isEmpty then
    (exitFailure, [Event.outLine "No data to train on, dataset empty."])
  else
    let cb := if keepBest then (keepBestRun dumpOk accs).2 else []
    let base := (if keepBest then [Event.installCallback] else []) ++
      [Event.engineTrain] ++ cb
    if saveWeights && !keepBest then
      let d := dumpNetworkToDisk dumpOk
      (d.1, base ++ d.2)
    else (exitSuccess, base)

/-- Embedding of `CommandLineInterface::validate`: fail fast on an empty
dataset, otherwise delegate to the engine's validate operation. -/
def validateRun {α : Type} (validationData : List α) : Nat × List Event :=
  if validationData.isEmpty then
    (exitFailure, [Event.outLine "No data to validate on, dataset empty."])
  else (exitSuccess, [Event.engineValidate])

/-- Embedding of the mode-sequencing block of `runWithGivenArguments` (the
non-inference branch after both datasets are resolved): run training when
requested; then run the standalone validation pass only when validation was
requested and periodic validation is off, and only when training exited
successfully, otherwise print a skip diagnostic and keep training's exit
code. -/
def runModes {α : Type} (training validation periodicValidation
    saveWeights keepBest dumpOk : Bool) (accs : List ℚ)
    (trainingDataset validationDataset : List α) : Nat × List Event :=
  let tr := if training
    then trainRun saveWeights keepBest dumpOk accs trainingDataset
    else (exitSuccess, [])
  if validation && !periodicValidation then
    if tr.1 = exitSuccess then
      let v := validateRun validationDataset
      (v.1, tr.2 ++ v.2)
    else
      (tr.1, tr.2 ++
        [Event.errLine "Problems occured during training, skipping validation."])
  else tr

/-! ### Argument parsing and validation

The model's input is the result of a successful cxxopts parse: for every
*registered* option, whether it was supplied (and its value); `argc` is the
original argument count.  `Args.count` embeds `ParseResult::count`, which
returns `0` for any name that was never registered. -/

/-- Parsed command-line arguments (post-cxxopts), plus the saved `argc`. -/
structure Args where
  argc : Nat
  help : Bool
  typeInfo : Bool
  grayscale : Bool
  cnn : Option String
  input : Option String
  validate : Option (List String)
  validateOffset : Option Nat
  validateNum : Option Nat
  train : Option (List String)
  trainOffset : Option Nat
  trainNum : Option Nat
  seed : Option Nat
  epochs : Option Nat
  learningRate : Option ℚ
  weightDecay : Option ℚ
  batchSize : Option Nat
  doNotLoad : Bool
  doNotSave : Bool
  optimizer : Option String
  lossFunction : Option String
  periodicValidation : Bool
  periodicOutput : Option Nat
  shuffle : Bool
  keepBest : Bool
deriving Repr, DecidableEq

/-- Occurrence count of a Boolean flag. -/
def flagCount (b : Bool) : Nat := if b then 1 else 0

/-- Occurrence count of a valued option. -/
def optionCount {α : Type} (o : Option α) : Nat := if o.isSome then 1 else 0

/-- Embedding of cxxopts `ParseResult::count`: the occurrence count of each
*registered* option name (the names passed to `add_options` in the
`CommandLineInterface` constructor); any other name — in particular the
unregistered `validation-offset` and `validation-num` queried at line 196 —
counts zero. -/
def Args.count (a : Args) (name : String) : Nat :=
  if name = "help" then flagCount a.help
  else if name = "cnn" then optionCount a.cnn
  else if name = "grayscale" then flagCount a.grayscale
  else if name = "type-info" then flagCount a.typeInfo
  else if name = "input" then optionCount a.input
  else if name = "validate" then optionCount a.validate
  else if name = "validate-offset" then optionCount a.validateOffset
  else if name = "validate-num" then optionCount a.validateNum
  else if name = "train" then optionCount a.train
  else if name = "train-offset" then optionCount a.trainOffset
  else if name = "train-num" then optionCount a.trainNum
  else if name = "seed" then optionCount a.seed
  else if name = "epochs" then optionCount a.epochs
  else if name = "learning-rate" then optionCount a.learningRate
  else if name = "weight-decay" then optionCount a.weightDecay
  else if name = "batch-size" then optionCount a.batchSize
  else if name = "do-not-load" then flagCount a.doNotLoad
  else if name = "do-not-save" then flagCount a.doNotSave
  else if name = "optimizer" then optionCount a.optimizer
  else if name = "loss-function" then optionCount a.lossFunction
  else if name = "periodic-validation" then flagCount a.periodicValidation
  else if name = "periodic-output" then optionCount a.periodicOutput
  else if name = "shuffle" then flagCount a.shuffle
  else if name = "keep-best" then flagCount a.keepBest
  else 0

/-- The run configuration assembled by `runWithGivenArguments` when argument
validation succeeds.  Valued training settings with engine-side defaults stay
`none` when the flag was absent. -/
structure RunConfig where
  grayscale : Bool
  cnnPath : String
  inference : Bool
  inputInferencePath : String
  validation : Bool
  validationFiles : List String
  validationOffset : Nat
  validationNum : Nat
  training : Bool
  trainingFiles : List String
  trainingOffset : Nat
  trainingNum : Nat
  randomSeed : Option Nat
  epochs : Option Nat
  batchSize : Option Nat
  errorOutputRate : Option Nat
  learningRate : Option ℚ
  weightDecay : Option ℚ
  optimizerName : Option String
  lossFunctionName : Option String
  loadWeights : Bool
  saveWeights : Bool
  keepBest : Bool
  periodicValidation : Bool
  shuffle : Bool
deriving Repr, DecidableEq

/-- The configuration state reached when control falls through every
validation check: each field is set exactly as the corresponding local or
member variable is at line 246 of `runWithGivenArguments` (training options
are only applied inside the `train` branch, validation offset/num only inside
the `validate` branch). -/
def mkConfig (a : Args) : RunConfig :=
  { grayscale := a.grayscale
    cnnPath := a.cnn.getD ""
    inference := a.input.isSome
    inputInferencePath := a.input.getD ""
    validation := a.validate.isSome
    validationFiles := a.validate.getD []
    validationOffset := if a.validate.isSome then a.validateOffset.getD 0 else 0
    validationNum := if a.validate.isSome then a.validateNum.getD 0 else 0
    training := a.train.isSome
    trainingFiles := a.train.getD []
    trainingOffset := if a.train.isSome then a.trainOffset.getD 0 else 0
    trainingNum := if a.train.isSome then a.trainNum.getD 0 else 0
    randomSeed := if a.train.isSome then a.seed else none
    epochs := if a.train.isSome then a.epochs else none
    batchSize := if a.train.isSome then a.batchSize else none
    errorOutputRate := if a.train.isSome then a.periodicOutput else none
    learningRate := if a.train.isSome then a.learningRate else none
    weightDecay := if a.train.isSome then a.weightDecay else none
    optimizerName := if a.train.isSome then a.optimizer else none
    lossFunctionName := if a.train.isSome then a.lossFunction else none
    loadWeights := !(a.train.isSome && a.doNotLoad)
    saveWeights := !(a.train.isSome && a.doNotSave)
    keepBest := a.train.isSome && a.keepBest
    periodicValidation := a.train.isSome && a.periodicValidation
    shuffle := a.train.isSome && a.shuffle }

/-- Outcome of the argument-parsing section of `runWithGivenArguments`
(lines 64–245): an early successful exit for `--help` or a lone
`--type-info`, an `ArgumentError` (printed by `errorWhenParsingArguments`
together with `EXIT_FAILURE`), or fall-through to the run phase with the
assembled configuration. -/
inductive ParseOutcome where
  | helpExit
  | typeInfoExit
  | argError (msg : String)
  | proceed (cfg : RunConfig)
deriving Repr, DecidableEq

/-- The effective argument count the validity heuristics compare against:
`argcBackup`, decremented once when `--type-info` was supplied together with
other arguments. -/
def effArgc (a : Args) : Nat := if a.typeInfo then a.argc - 1 else a.argc

/-- Embedding of the argument-parsing section of
`CommandLineInterface::runWithGivenArguments`, with every check in source
order: no-arguments check; `--help`; lone `--type-info`; required `--cnn`;
the inference argument-count heuristic; the training-branch chain (the dead
guard over the unregistered names, then the two keep-best requirements); the
standalone-validation argument-count heuristic; finally the mode checks. -/
def parseArguments (a : Args) : ParseOutcome :=
  if a.argc = 1 then .argError "No parameters given."
  else if a.help then .helpExit
  else if a.typeInfo ∧ a.argc = 2 then .typeInfoExit
  else if a.cnn = none then .argError "XML representation of CNN required."
  else if a.input.isSome ∧ 6 < effArgc a then
    .argError "Invalid combination of parameters for Inference mode."
  else if a.train.isSome ∧ optionCount a.validate = 0 ∧
      (a.count "validation-offset" ≠ 0 ∨ a.count "validation-num" ≠ 0) then
    .argError "Cannot set validation num/offset without setting validation files."
  else if a.train.isSome ∧ a.keepBest ∧ a.doNotSave then
    .argError "Cannot keep best if saving is not enabled."
  else if a.train.isSome ∧ a.keepBest ∧ ¬a.periodicValidation then
    .argError "Cannot keep best if periodic validation is not enabled."
  else if a.validate.isSome ∧ a.train = none ∧
      2 * optionCount a.validateOffset + 2 * optionCount a.validateNum +
        (a.validate.getD []).length + 4 ≠ effArgc a then
    .argError "Invalid combination of parameters for Validation mode."
  else if a.input = none ∧ a.train = none ∧ a.validate = none then
    .argError "No mode chosen. Choose either inference, training and/or validation."
  else if a.input.isSome ∧ (a.train.isSome ∨ a.validate.isSome) then
    .argError "Cannot run input mode along validation/training."
  else .proceed (mkConfig a)

/-! ### Concrete instances used to evaluate the model on specific inputs -/

/-- A concrete parser bundle over `Nat` samples: the manifest parser yields
sample `1` for `a.txt` and sample `2` for any other file; the other parsers
yield nothing. -/
def demoParsers : Parsers Nat :=
  { idxParse := fun _ _ _ _ _ => []
    binParse := fun _ _ _ _ _ _ _ => []
    pngParse := fun f _ _ _ _ => if f = "a.txt" then [1] else [2] }

/-- A minimal well-formed argument set: `--cnn net.xml` supplied, no mode
flags, every other option absent. -/
def baseArgs : Args :=
  { argc := 3
    help := false
    typeInfo := false
    grayscale := false
    cnn := some "net.xml"
    input := none
    validate := none
    validateOffset := none
    validateNum := none
    train := none
    trainOffset := none
    trainNum := none
    seed := none
    epochs := none
    learningRate := none
    weightDecay := none
    batchSize := none
    doNotLoad := false
    doNotSave := false
    optimizer := none
    lossFunction := none
    periodicValidation := false
    periodicOutput := none
    shuffle := false
    keepBest := false }

/-- A training argument set with `--keep-best --do-not-save`:
`prog --cnn net.xml --train d.bin --keep-best --do-not-save`. -/
def kbArgs : Args :=
  { baseArgs with
    argc := 6
    train := some ["d.bin"]
    keepBest := true
    doNotSave := true }

/-- A standalone-validation argument set:
`prog --cnn net.xml --validate v.txt` (5 arguments). -/
def vArgs : Args :=
  { baseArgs with
    argc := 5
    validate := some ["v.txt"] }

/-- A training argument set supplying `--validate-offset` without
`--validate`: `prog --cnn net.xml --train t.txt --validate-offset 5`. -/
def voArgs : Args :=
  { baseArgs with
    argc := 8
    train := some ["t.txt"]
    validateOffset := some 5 }

/-- A standalone-validation argument set that also supplies `--type-info`:
`prog --type-info --cnn net.xml --validate v.txt` (6 arguments in total). -/
def tiArgs : Args :=
  { baseArgs with
    argc := 6
    typeInfo := true
    validate := some ["v.txt"] }

/-! ### Helper lemmas -/

/-- The names queried by the guard at line 196 were never registered, so the
embedded `ParseResult::count` is identically zero on them. -/
theorem count_validation_offset_eq_zero (a : Args) :
    a.count "validation-offset" = 0 := rfl

/-- As `count_validation_offset_eq_zero`, for `validation-num`. -/
theorem count_validation_num_eq_zero (a : Args) :
    a.count "validation-num" = 0 := rfl

/-- Every event emitted by the keep-best callback sequence is a persistence
attempt or the persistence-failure diagnostic. -/
theorem keepBestSeq_events (dumpOk : Bool) (accs : List ℚ) :
    ∀ (b : ℚ) (e : Event), e ∈ (keepBestSeq dumpOk b accs).2 →
      e = Event.dumpAttempt ∨
      e = Event.errLine "Could not save network to disk." := by
  induction accs with
  | nil => intro b e h; simp [keepBestSeq] at h
  | cons acc rest ih =>
    intro b e h
    simp only [keepBestSeq, List.mem_append] at h
    rcases h with h | h
    · by_cases hlt : b < acc
      · cases dumpOk <;>
          simp [keepBestCallback, hlt, dumpNetworkToDisk] at h <;> tauto
      · simp [keepBestCallback, hlt] at h
    · exact ih _ _ h

/-- The training driver's event trace never contains an engine validate
call. -/
theorem engineValidate_not_mem_trainRun {α : Type} (sw kb d : Bool)
    (accs : List ℚ) (td : List α) :
    Event.engineValidate ∉ (trainRun sw kb d accs td).2 := by
  intro hmem
  by_cases he : td.isEmpty
  · simp [trainRun, he] at hmem
  · cases kb
    · cases sw <;> cases d <;>
        simp [trainRun, he, dumpNetworkToDisk] at hmem
    · have h2 : Event.engineValidate ∈ (keepBestSeq d keepBestInit accs).2 := by
        cases sw <;> cases d <;>
          simp [trainRun, he, dumpNetworkToDisk, keepBestRun] at hmem <;>
          exact hmem
      rcases keepBestSeq_events d accs keepBestInit _ h2 with h | h <;> simp at h

/-! ### Claims -/

/-- C1: dataset resolution is claimed to append each file's parsed samples in
file-list order, so the resolved dataset would be the in-order concatenation
of the per-file parses.  The loop body instead *assigns* the parse result to
the accumulator, so every earlier file's samples are discarded: with two
manifest files parsing to `[1]` and `[2]`, the resolved dataset is `[2]`, not
the concatenation `[1] ++ [2]`. -/
theorem resolveDataset_drops_earlier_files :
    (parseInputDataset demoParsers false ["a.txt"] ⟨1, 1, 1⟩ ⟨1, 1, 1⟩ 0 0).1
      = [1] ∧
    (parseInputDataset demoParsers false ["b.txt"] ⟨1, 1, 1⟩ ⟨1, 1, 1⟩ 0 0).1
      = [2] ∧
    (parseInputDataset demoParsers false ["a.txt", "b.txt"] ⟨1, 1, 1⟩ ⟨1, 1, 1⟩
      0 0).1 = [2] ∧
    ([2] : List Nat) ≠ [1] ++ [2] := by decide

/-- C3: the keep-best policy persists on an epoch notification exactly when
the reported accuracy strictly exceeds the stored best, then updates the
stored best; the stored best starts at `-1`, below any valid accuracy; the
accuracy sequence `[0.10, 0.25, 0.60]` triggers exactly 3 persistence
attempts and `[0.60, 0.60, 0.55]` exactly one. -/
theorem keepBest_persists_iff_strictly_better :
    (keepBestInit < 0 ∧
      ∀ d : Bool, (keepBestSeq d keepBestInit []).1 = keepBestInit) ∧
    (∀ (d : Bool) (b a : ℚ),
      (keepBestCallback d b a).1 = (if b < a then a else b) ∧
      (keepBestCallback d b a).2.count Event.dumpAttempt
        = (if b < a then 1 else 0)) ∧
    (keepBestRun true [1/10, 1/4, 3/5]).2.count Event.dumpAttempt = 3 ∧
    (keepBestRun true [3/5, 3/5, 11/20]).2.count Event.dumpAttempt = 1 := by
  refine ⟨⟨by norm_num [keepBestInit], fun d => rfl⟩, fun d b a => ?_, ?_, ?_⟩
  · by_cases hlt : b < a <;>
      cases d <;> simp [keepBestCallback, hlt, dumpNetworkToDisk]
  · norm_num [keepBestRun, keepBestSeq, keepBestCallback, keepBestInit,
      dumpNetworkToDisk, List.count_cons]
  · norm_num [keepBestRun, keepBestSeq, keepBestCallback, keepBestInit,
      dumpNetworkToDisk, List.count_cons]

/-- C7: resolving an empty file list yields an empty dataset, and the
training and validation drivers on an empty dataset return `EXIT_FAILURE`
(nonzero) after printing a message, without invoking the engine's train or
validate operation. -/
theorem empty_dataset_fast_fail :
    (∀ (α : Type) (P : Parsers α) (g : Bool) (isz osz : Dimensions)
        (off n : Nat), parseInputDataset P g [] isz osz off n = ([], [])) ∧
    exitFailure ≠ exitSuccess ∧
    (∀ (α : Type) (sw kb d : Bool) (accs : List ℚ),
      trainRun sw kb d accs ([] : List α)
        = (exitFailure, [Event.outLine "No data to train on, dataset empty."]) ∧
      Event.engineTrain ∉ (trainRun sw kb d accs ([] : List α)).2) ∧
    (∀ α : Type,
      validateRun ([] : List α)
        = (exitFailure, [Event.outLine "No data to validate on, dataset empty."]) ∧
      Event.engineValidate ∉ (validateRun ([] : List α)).2) := by
  refine ⟨fun _ _ _ _ _ _ _ => rfl, by decide,
    fun α sw kb d accs => ⟨rfl, ?_⟩, fun α => ⟨rfl, ?_⟩⟩
  · simp [trainRun]
  · simp [validateRun]

/-- C9: a dataset file matching none of the three filename patterns leaves
the resolved dataset exactly as it was, only appending the non-fatal stderr
diagnostic; resolution returns normally, so the run continues. -/
theorem unmatched_file_contributes_nothing (α : Type) (P : Parsers α)
    (g : Bool) (files : List String) (f : String) (isz osz : Dimensions)
    (off n : Nat) (h1 : matchIdxFile f = false) (h2 : matchBinFile f = false)
    (h3 : matchTxtFile f = false) :
    parseInputDataset P g (files ++ [f]) isz osz off n =
      ((parseInputDataset P g files isz osz off n).1,
       (parseInputDataset P g files isz osz off n).2 ++
         [Event.errLine "Input data file not detected as either BIN, IDX or TXT file (based on extension)."]) := by
  simp [parseInputDataset, List.foldl_append, h1, h2, h3]

/-- Witness for C9 at the concrete unmatched file `data.csv` after the
matched file `a.txt`. -/
theorem unmatched_file_contributes_nothing_witness :
    (matchIdxFile "data.csv" = false ∧ matchBinFile "data.csv" = false ∧
      matchTxtFile "data.csv" = false) ∧
    parseInputDataset demoParsers false (["a.txt"] ++ ["data.csv"])
        ⟨1, 1, 1⟩ ⟨1, 1, 1⟩ 0 0 =
      ((parseInputDataset demoParsers false ["a.txt"] ⟨1, 1, 1⟩ ⟨1, 1, 1⟩ 0 0).1,
       (parseInputDataset demoParsers false ["a.txt"] ⟨1, 1, 1⟩ ⟨1, 1, 1⟩ 0 0).2 ++
         [Event.errLine "Input data file not detected as either BIN, IDX or TXT file (based on extension)."]) :=
  ⟨⟨by decide, by decide, by decide⟩,
    unmatched_file_contributes_nothing Nat demoParsers false ["a.txt"]
      "data.csv" ⟨1, 1, 1⟩ ⟨1, 1, 1⟩ 0 0 (by decide) (by decide) (by decide)⟩

/-- C2 counterexample: a failing checkpoint write triggered by keep-best is
*not* fatal.  With keep-best on, a failing persistence collaborator, and the
epoch accuracy `0.5` improving on the stored best, the run emits the
persistence-failure diagnostic yet still finishes with `EXIT_SUCCESS`: the
callback discards `dumpNetworkToDisk`'s failure code. -/
theorem keepBest_dump_failure_not_fatal :
    (runModes true false false true true false [1/2] ([0] : List Nat) []).1
      = exitSuccess ∧
    Event.errLine "Could not save network to disk."
      ∈ (runModes true false false true true false [1/2] ([0] : List Nat) []).2 := by
  norm_num [runModes, trainRun, keepBestRun, keepBestSeq, keepBestCallback,
    keepBestInit, dumpNetworkToDisk]

/-- C2 (amended): an I/O failure during the final post-training persistence
is fatal with exactly one diagnostic line, and a persistence attempt is made
exactly once (no retry); an I/O failure during a keep-best checkpoint write
also emits the single diagnostic line, but its failure code is discarded by
the callback and the training driver still returns `EXIT_SUCCESS`. -/
theorem persistence_error_policy (accs : List ℚ) (td : List Nat)
    (h : td ≠ []) (b a : ℚ) (hba : b < a) :
    (trainRun true false false accs td).1 = exitFailure ∧
    (trainRun true false false accs td).2.count
      (Event.errLine "Could not save network to disk.") = 1 ∧
    (dumpNetworkToDisk false).2.count Event.dumpAttempt = 1 ∧
    (keepBestCallback false b a).2
      = [Event.dumpAttempt, Event.errLine "Could not save network to disk."] ∧
    (trainRun true true false accs td).1 = exitSuccess := by
  have he : td.isEmpty = false := by simpa using h
  refine ⟨?_, ?_, by decide, ?_, ?_⟩
  · simp [trainRun, he, dumpNetworkToDisk]
  · simp [trainRun, he, dumpNetworkToDisk, List.count_cons]
  · simp [keepBestCallback, hba, dumpNetworkToDisk]
  · simp [trainRun, he]

/-- Witness for the amended C2 at `td = [0]`, `b = 0`, `a = 1/2`. -/
theorem persistence_error_policy_witness :
    (([0] : List Nat) ≠ [] ∧ (0 : ℚ) < 1/2) ∧
    ((trainRun true false false [] ([0] : List Nat)).1 = exitFailure ∧
    (trainRun true false false [] ([0] : List Nat)).2.count
      (Event.errLine "Could not save network to disk.") = 1 ∧
    (dumpNetworkToDisk false).2.count Event.dumpAttempt = 1 ∧
    (keepBestCallback false 0 (1/2)).2
      = [Event.dumpAttempt, Event.errLine "Could not save network to disk."] ∧
    (trainRun true true false [] ([0] : List Nat)).1 = exitSuccess) :=
  ⟨⟨by decide, by norm_num⟩,
    persistence_error_policy [] [0] (by decide) 0 (1/2) (by norm_num)⟩

/-- C8: with both training and standalone validation requested and periodic
validation off, the trace is training's trace followed by a tail containing
no engine train call (training runs to completion first); when training
succeeded, the tail is exactly the standalone validation pass; when training
failed, no engine validate call happens and the skip diagnostic is printed;
with periodic validation on, the standalone validation pass never runs. -/
theorem training_precedes_standalone_validation {α : Type} (sw kb d : Bool)
    (accs : List ℚ) (td vd : List α) :
    (∃ tail, (runModes true true false sw kb d accs td vd).2
        = (trainRun sw kb d accs td).2 ++ tail ∧
      Event.engineValidate ∉ (trainRun sw kb d accs td).2 ∧
      Event.engineTrain ∉ tail) ∧
    ((trainRun sw kb d accs td).1 = exitSuccess →
      (runModes true true false sw kb d accs td vd).2
        = (trainRun sw kb d accs td).2 ++ (validateRun vd).2) ∧
    ((trainRun sw kb d accs td).1 ≠ exitSuccess →
      Event.engineValidate ∉ (runModes true true false sw kb d accs td vd).2 ∧
      Event.errLine "Problems occured during training, skipping validation."
        ∈ (runModes true true false sw kb d accs td vd).2) ∧
    Event.engineValidate ∉ (runModes true true true sw kb d accs td vd).2 := by
  have hnv := engineValidate_not_mem_trainRun sw kb d accs td
  refine ⟨?_, ?_, ?_, ?_⟩
  · by_cases hexit : (trainRun sw kb d accs td).1 = exitSuccess
    · refine ⟨(validateRun vd).2, by simp [runModes, hexit], hnv, ?_⟩
      by_cases hv : vd.isEmpty <;> simp [validateRun, hv]
    · exact ⟨[Event.errLine "Problems occured during training, skipping validation."],
        by simp [runModes, hexit], hnv, by simp⟩
  · intro hexit; simp [runModes, hexit]
  · intro hexit
    refine ⟨?_, by simp [runModes, hexit]⟩
    intro hmem
    simp [runModes, hexit] at hmem
    exact hnv hmem
  · simpa [runModes] using hnv

/-- C4: outside the help/lone-type-info early exits, selecting none of
inference, training, validation is rejected with an argument error, and
selecting inference together with training or validation is always rejected
with an argument error. -/
theorem exactly_one_mode_family (a : Args) (hh : a.help = false)
    (ht : ¬(a.typeInfo = true ∧ a.argc = 2)) :
    (a.input = none → a.train = none → a.validate = none →
      ∃ m, parseArguments a = .argError m) ∧
    (a.input.isSome → a.train.isSome ∨ a.validate.isSome →
      ∃ m, parseArguments a = .argError m) := by
  constructor
  · intro hi htr hv
    by_cases h1 : a.argc = 1
    · exact ⟨"No parameters given.", by simp [parseArguments, h1]⟩
    by_cases h3 : a.typeInfo = true ∧ a.argc = 2
    · exact absurd h3 ht
    by_cases h4 : a.cnn = none
    · exact ⟨"XML representation of CNN required.",
        by simp [parseArguments, h1, hh, h3, h4]⟩
    · exact ⟨"No mode chosen. Choose either inference, training and/or validation.",
        by simp [parseArguments, h1, hh, h3, h4, hi, htr, hv]⟩
  · intro hi hm
    by_cases h1 : a.argc = 1
    · exact ⟨"No parameters given.", by simp [parseArguments, h1]⟩
    by_cases h3 : a.typeInfo = true ∧ a.argc = 2
    · exact absurd h3 ht
    by_cases h4 : a.cnn = none
    · exact ⟨"XML representation of CNN required.",
        by simp [parseArguments, h1, hh, h3, h4]⟩
    by_cases h5 : 6 < effArgc a
    · exact ⟨"Invalid combination of parameters for Inference mode.",
        by simp [parseArguments, h1, hh, h3, h4, hi, h5]⟩
    cases htt : a.train with
    | some ts =>
      simp only [parseArguments, count_validation_offset_eq_zero,
        count_validation_num_eq_zero, h1, hh, h3, h4, hi, h5, htt]
      simp only [ne_eq, not_true_eq_false, not_false_eq_true, or_self,
        and_false, false_and, and_true, true_and, if_false, if_true,
        Option.isSome_some, Option.isSome_none, reduceCtorEq, if_neg, ite_false]
      all_goals simp
      all_goals split_ifs <;> exact ⟨_, rfl⟩
    | none =>
      rcases hm with hmt | hmv
      · rw [htt] at hmt; simp at hmt
      · cases hvv : a.validate with
        | none => rw [hvv] at hmv; simp at hmv
        | some vs =>
          simp only [parseArguments, count_validation_offset_eq_zero,
            count_validation_num_eq_zero]
          simp [h1, hh, h3, h4, hi, h5, htt, hvv]
          all_goals split_ifs <;> exact ⟨_, rfl⟩

/-- Witness for C4: no `--cnn`-only argument set selects a mode and is
rejected; `-i` together with `-t` is rejected. -/
theorem exactly_one_mode_family_witness :
    (baseArgs.help = false ∧ ¬(baseArgs.typeInfo = true ∧ baseArgs.argc = 2)) ∧
    ((baseArgs.input = none → baseArgs.train = none → baseArgs.validate = none →
      ∃ m, parseArguments baseArgs = .argError m) ∧
    (baseArgs.input.isSome → baseArgs.train.isSome ∨ baseArgs.validate.isSome →
      ∃ m, parseArguments baseArgs = .argError m)) :=
  ⟨⟨by decide, by decide⟩, exactly_one_mode_family baseArgs (by decide) (by decide)⟩

/-- C5: in training mode (outside the early exits and the earlier argument
checks), keep-best without saving is rejected with its own message, keep-best
with saving but without periodic validation is rejected with a distinct
message. -/
theorem keepBest_requires_save_and_periodic (a : Args) (hh : a.help = false)
    (ht : ¬(a.typeInfo = true ∧ a.argc = 2)) (hargc : a.argc ≠ 1)
    (hc : a.cnn ≠ none) (hi : ¬(a.input.isSome ∧ 6 < effArgc a))
    (htr : a.train.isSome) (hk : a.keepBest = true) :
    (a.doNotSave = true →
      parseArguments a = .argError "Cannot keep best if saving is not enabled.") ∧
    (a.doNotSave = false → a.periodicValidation = false →
      parseArguments a
        = .argError "Cannot keep best if periodic validation is not enabled.") ∧
    "Cannot keep best if saving is not enabled."
      ≠ "Cannot keep best if periodic validation is not enabled." := by
  refine ⟨?_, ?_, by decide⟩
  · intro hs
    simp [parseArguments, hargc, hh, ht, hc, hi, htr, hk, hs,
      count_validation_offset_eq_zero, count_validation_num_eq_zero]
  · intro hs hp
    simp [parseArguments, hargc, hh, ht, hc, hi, htr, hk, hs, hp,
      count_validation_offset_eq_zero, count_validation_num_eq_zero]

/-- Witness for C5 at a concrete training argument set with `--keep-best`. -/
theorem keepBest_requires_save_and_periodic_witness :
    ((kbArgs.help = false ∧ ¬(kbArgs.typeInfo = true ∧ kbArgs.argc = 2) ∧
      kbArgs.argc ≠ 1 ∧ kbArgs.cnn ≠ none ∧
      ¬(kbArgs.input.isSome ∧ 6 < effArgc kbArgs) ∧
      kbArgs.train.isSome ∧ kbArgs.keepBest = true)) ∧
    ((kbArgs.doNotSave = true →
      parseArguments kbArgs = .argError "Cannot keep best if saving is not enabled.") ∧
    (kbArgs.doNotSave = false → kbArgs.periodicValidation = false →
      parseArguments kbArgs
        = .argError "Cannot keep best if periodic validation is not enabled.") ∧
    "Cannot keep best if saving is not enabled."
      ≠ "Cannot keep best if periodic validation is not enabled.") :=
  ⟨⟨by decide, by decide, by decide, by decide, by decide, by decide, by decide⟩,
    keepBest_requires_save_and_periodic kbArgs (by decide) (by decide) (by decide)
      (by decide) (by decide) (by decide) (by decide)⟩

/-- C6 counterexample: with `--type-info` supplied alongside a
standalone-validation argument set (`prog --type-info --cnn net.xml
--validate v.txt`, 6 arguments in total), the count formula over the *total*
argument count fails (`4 + 1 = 5 ≠ 6`), so the claim predicts rejection —
yet the set is accepted: line 110 decrements `argcBackup` for `--type-info`
before the check at line 224 compares against it. -/
theorem typeInfo_validation_count_accepted :
    (2 * optionCount tiArgs.validateOffset + 2 * optionCount tiArgs.validateNum +
      (tiArgs.validate.getD []).length + 4 ≠ tiArgs.argc) ∧
    tiArgs.validate.isSome ∧ tiArgs.train = none ∧ tiArgs.input = none ∧
    tiArgs.help = false ∧ ¬(tiArgs.typeInfo = true ∧ tiArgs.argc = 2) ∧
    parseArguments tiArgs = .proceed (mkConfig tiArgs) := by decide

/-- C6 (amended): a standalone-validation argument set (validation selected,
training not, inference not, outside the `--help` and lone `--type-info`
early exits, with `--cnn` present) is rejected with an argument error
exactly when `4 + 2·(offset option given) + 2·(count option given) +
number-of-validation-files` does not equal the *effective* argument count:
the total argument count, minus one when `--type-info` was supplied. -/
theorem validation_count_heuristic (a : Args) (hh : a.help = false)
    (ht : ¬(a.typeInfo = true ∧ a.argc = 2)) (hargc : a.argc ≠ 1)
    (hc : a.cnn ≠ none) (hi : a.input = none) (htr : a.train = none)
    (hv : a.validate.isSome) :
    (∃ m, parseArguments a = .argError m) ↔
      2 * optionCount a.validateOffset + 2 * optionCount a.validateNum +
        (a.validate.getD []).length + 4 ≠ effArgc a := by
  have hvn : a.validate ≠ none := Option.isSome_iff_ne_none.mp hv
  by_cases hq : 2 * optionCount a.validateOffset + 2 * optionCount a.validateNum +
      (a.validate.getD []).length + 4 = effArgc a
  · have hp : parseArguments a = .proceed (mkConfig a) := by
      simp [parseArguments, hargc, hh, ht, hc, hi, htr, hv, hvn, hq,
        count_validation_offset_eq_zero, count_validation_num_eq_zero]
    constructor
    · rintro ⟨m, hm⟩
      rw [hp] at hm
      exact absurd hm (by simp)
    · intro hne
      exact absurd hq hne
  · have hp : parseArguments a
        = .argError "Invalid combination of parameters for Validation mode." := by
      simp [parseArguments, hargc, hh, ht, hc, hi, htr, hv, hvn, hq,
        count_validation_offset_eq_zero, count_validation_num_eq_zero]
    exact ⟨fun _ => hq, fun _ => ⟨_, hp⟩⟩

/-- Witness for the amended C6 at `prog --cnn net.xml --validate v.txt`,
where the count equation holds (`4 + 1 = 5 = effArgc`) and the set is
accepted. -/
theorem validation_count_heuristic_witness :
    (vArgs.help = false ∧ ¬(vArgs.typeInfo = true ∧ vArgs.argc = 2) ∧
      vArgs.argc ≠ 1 ∧ vArgs.cnn ≠ none ∧ vArgs.input = none ∧
      vArgs.train = none ∧ vArgs.validate.isSome) ∧
    ((∃ m, parseArguments vArgs = .argError m) ↔
      2 * optionCount vArgs.validateOffset + 2 * optionCount vArgs.validateNum +
        (vArgs.validate.getD []).length + 4 ≠ effArgc vArgs) :=
  ⟨⟨by decide, by decide, by decide, by decide, by decide, by decide, by decide⟩,
    validation_count_heuristic vArgs (by decide) (by decide) (by decide)
      (by decide) (by decide) (by decide) (by decide)⟩

/-- C10: the guard rejecting `--validate-offset`/`--validate-num` without
`--validate` queries the never-registered names `validation-offset` and
`validation-num`, which always count zero, so its condition never holds; a
training argument set supplying `--validate-offset` without `--validate`
(and passing the other checks) is accepted, and the resulting configuration
ignores the supplied values. -/
theorem unregistered_validation_option_names (a : Args) (hh : a.help = false)
    (ht : ¬(a.typeInfo = true ∧ a.argc = 2)) (hargc : a.argc ≠ 1)
    (hc : a.cnn ≠ none) (hi : a.input = none) (htr : a.train.isSome)
    (hv : a.validate = none)
    (_hsup : a.validateOffset.isSome ∨ a.validateNum.isSome)
    (hkb : ¬(a.keepBest = true ∧
      (a.doNotSave = true ∨ a.periodicValidation = false))) :
    a.count "validation-offset" = 0 ∧ a.count "validation-num" = 0 ∧
    ¬(a.train.isSome ∧ optionCount a.validate = 0 ∧
      (a.count "validation-offset" ≠ 0 ∨ a.count "validation-num" ≠ 0)) ∧
    parseArguments a = .proceed (mkConfig a) ∧
    (mkConfig a).validationOffset = 0 ∧ (mkConfig a).validationNum = 0 := by
  have htn : a.train ≠ none := Option.isSome_iff_ne_none.mp htr
  refine ⟨rfl, rfl, ?_, ?_, by simp [mkConfig, hv], by simp [mkConfig, hv]⟩
  · rintro ⟨-, -, hbad | hbad⟩ <;>
      simp [count_validation_offset_eq_zero, count_validation_num_eq_zero]
        at hbad
  · have hks : a.keepBest = false ∨
        (a.doNotSave = false ∧ a.periodicValidation = true) := by
      cases hkb1 : a.keepBest with
      | false => exact Or.inl rfl
      | true =>
        refine Or.inr ⟨?_, ?_⟩
        · cases hdn : a.doNotSave with
          | false => rfl
          | true => exact absurd ⟨hkb1, Or.inl hdn⟩ hkb
        · cases hpv : a.periodicValidation with
          | true => rfl
          | false => exact absurd ⟨hkb1, Or.inr hpv⟩ hkb
    rcases hks with hk | ⟨hdns, hper⟩
    · simp [parseArguments, hargc, hh, ht, hc, hi, htr, htn, hv, hk,
        count_validation_offset_eq_zero, count_validation_num_eq_zero]
    · simp [parseArguments, hargc, hh, ht, hc, hi, htr, htn, hv, hdns, hper,
        count_validation_offset_eq_zero, count_validation_num_eq_zero]

/-- Witness for C10 at `prog --cnn net.xml --train t.txt --validate-offset 5`:
accepted, with the supplied offset ignored in the configuration. -/
theorem unregistered_validation_option_names_witness :
    (voArgs.help = false ∧ ¬(voArgs.typeInfo = true ∧ voArgs.argc = 2) ∧
      voArgs.argc ≠ 1 ∧ voArgs.cnn ≠ none ∧ voArgs.input = none ∧
      voArgs.train.isSome ∧ voArgs.validate = none ∧
      (voArgs.validateOffset.isSome ∨ voArgs.validateNum.isSome) ∧
      ¬(voArgs.keepBest = true ∧
        (voArgs.doNotSave = true ∨ voArgs.periodicValidation = false))) ∧
    (voArgs.count "validation-offset" = 0 ∧ voArgs.count "validation-num" = 0 ∧
    ¬(voArgs.train.isSome ∧ optionCount voArgs.validate = 0 ∧
      (voArgs.count "validation-offset" ≠ 0 ∨ voArgs.count "validation-num" ≠ 0)) ∧
    parseArguments voArgs = .proceed (mkConfig voArgs) ∧
    (mkConfig voArgs).validationOffset = 0 ∧ (mkConfig voArgs).validationNum = 0) :=
  ⟨⟨by decide, by decide, by decide, by decide, by decide, by decide,
      by decide, by decide, by decide⟩,
    unregistered_validation_option_names voArgs (by decide) (by decide)
      (by decide) (by decide) (by decide) (by decide) (by decide)
      (by decide) (by decide)⟩

end TypeCNN
